import Mathlib

/-!
Verification of the KoopaENGINE3.0 platformer engine (src/debug.py and
src/koopahdrv0.py) against its natural-language specification.

Modelling conventions:
- Python floats are modelled as exact rationals (ℚ); every numeric constant
  in the source (3.5, 0.45, 0.15, ...) is an exact dyadic rational.
- Python ints (scores, lives, timers, pygame.Rect fields) are Int.
- pygame.Rect construction truncates float coordinates toward zero; this is
  qtrunc below.  pygame's colliderect is a strict-overlap test (touching
  edges do not collide); this is collideRect below.
- Calls to `random` are modelled by explicit oracle parameters (the sampled
  indices, the freshly generated level, the random particle velocities).
  The oracles only stand for values the source draws at random; all control
  flow is translated from the source.
- Cosmetic particle emission (`emit_photon_burst`) reads and writes no
  character, level or score state; in the character-engine embedding its
  call sites are noted in comments and the particle population itself is
  verified separately in the PhotonicGaussianEngine section.
-/

/-- A 2-component vector of rationals (numpy float pairs in the source). -/
structure Vec2 where
  x : ℚ
  y : ℚ
deriving DecidableEq

/-- An integer rectangle: pygame.Rect (x, y, w, h). -/
structure Rect where
  x : Int
  y : Int
  w : Int
  h : Int
deriving DecidableEq

/-- Python's binary `min`: the first argument on ties. -/
def qmin (a b : ℚ) : ℚ := if a ≤ b then a else b

/-- Python's binary `max`: the first argument on ties. -/
def qmax (a b : ℚ) : ℚ := if a ≥ b then a else b

/-- Truncation toward zero, as pygame.Rect applies to float coordinates. -/
def qtrunc (q : ℚ) : Int :=
  if q < 0 then -⌊-q⌋ else ⌊q⌋

/-- pygame.Rect.colliderect: strict overlap on both axes. -/
def collideRect (a b : Rect) : Bool :=
  decide (a.x < b.x + b.w) && decide (a.x + a.w > b.x) &&
  decide (a.y < b.y + b.h) && decide (a.y + a.h > b.y)

-- ========== PhotonicGaussianEngine (both source files, identical except
-- for the per-frame particle update constants) ==========

/-- One particle of the photonic engine.  `trail` is the bounded trailing
position history (deque(maxlen=15)); the source never appends to it. -/
structure Particle where
  pos : Vec2
  vel : Vec2
  color : Int × Int × Int
  life : Int
  trail : List Vec2
deriving DecidableEq

/-- The photon population cap, `self.photon_limit = 10000` in both files. -/
def photon_limit : Int := 10000

/-- `emit_photon_burst(self, x, y, count, color, spread=10)`
(src/debug.py lines 76-87 and src/koopahdrv0.py lines 64-75).
The loop bound `min(count, self.photon_limit - len(self.particles))` is
evaluated once; each iteration appends one particle with `life = 255`.
`velO i` is the oracle for the i-th random `(cos angle * speed,
sin angle * speed)` velocity (`spread` only scales that random draw). -/
def emit_photon_burst (ps : List Particle) (x y : ℚ) (count : Int)
    (color : Int × Int × Int) (spread : ℚ) (velO : Nat → Vec2) : List Particle :=
  ps ++ (List.range (min count (photon_limit - (ps.length : Int))).toNat).map
    (fun i => { pos := ⟨x, y⟩, vel := velO i, color := color, life := 255, trail := [] })

/-- One recorded `emit` request, for reasoning about call sequences. -/
structure EmitReq where
  x : ℚ
  y : ℚ
  count : Int
  color : Int × Int × Int
  spread : ℚ
  velO : Nat → Vec2

/-- Apply one emit request to a population. -/
def applyEmit (ps : List Particle) (r : EmitReq) : List Particle :=
  emit_photon_burst ps r.x r.y r.count r.color r.spread r.velO

/-- Per-particle step of the particle update loop in src/debug.py
`render_level` (lines 793-801): position advances by velocity, velocity
gains 0.2 downward, life drops by 3. -/
def stepParticle (p : Particle) : Particle :=
  { p with pos := ⟨p.pos.x + p.vel.x, p.pos.y + p.vel.y⟩,
           vel := ⟨p.vel.x, p.vel.y + 0.2⟩,
           life := p.life - 3 }

/-- The particle update loop of src/debug.py `render_level` (793-801):
iterates over a copy (`particles[:]`), removing from the live list any
particle whose decremented life is ≤ 0 — i.e. a map followed by a filter. -/
def render_level_particles (ps : List Particle) : List Particle :=
  (ps.map stepParticle).filter (fun p => decide (p.life > 0))

/-- Per-particle step of the particle update loop in src/koopahdrv0.py
`render_level` (lines 994-1001): gravity 0.1, life drops by 2. -/
def stepParticleK (p : Particle) : Particle :=
  { p with pos := ⟨p.pos.x + p.vel.x, p.pos.y + p.vel.y⟩,
           vel := ⟨p.vel.x, p.vel.y + 0.1⟩,
           life := p.life - 2 }

/-- The particle update loop of src/koopahdrv0.py `render_level` (994-1001). -/
def render_level_particlesK (ps : List Particle) : List Particle :=
  (ps.map stepParticleK).filter (fun p => decide (p.life > 0))

/-- `self.evolution_params` of the photonic engine. -/
structure EvoParams where
  mutation_rate : ℚ
  fitness_threshold : ℚ
  generation : Int
deriving DecidableEq

/-- Sum of a list of rationals. -/
def qsum (xs : List ℚ) : ℚ := xs.foldl (· + ·) 0

/-- Mean of a list of rationals (0 on the empty list, matching numpy's
convention only vacuously: the source always calls it on > 100 particles). -/
def qmean (xs : List ℚ) : ℚ := qsum xs / xs.length

/-- Population variance of a list of rationals (square of `np.std`). -/
def qvariance (xs : List ℚ) : ℚ :=
  qsum (xs.map (fun v => (v - qmean xs) ^ 2)) / xs.length

/-- The flattened position components of a population, as `np.array([p['pos']
for p in particles])` flattens to 2·N scalars under `np.std`. -/
def posComponents (ps : List Particle) : List ℚ :=
  ps.flatMap (fun p => [p.pos.x, p.pos.y])

/-- The test `np.std(positions) / SCREEN_WIDTH < fitness_threshold`,
encoded without square roots: for c = 800·t, `sqrt v < c ↔ 0 < c ∧ v < c²`
(v ≥ 0).  SCREEN_WIDTH = 800. -/
def fitnessBelow (ps : List Particle) (t : ℚ) : Bool :=
  decide (0 < 800 * t) && decide (qvariance (posComponents ps) < (800 * t) ^ 2)

/-- The mutation pass: `random.sample(particles, int(len * mutation_rate))`
receives `vel += randn(2) * 0.5`.  `sample` is the oracle for the sampled
indices (the source samples that many distinct particles at random) and
`perturb i` the oracle for the random velocity increment of index i. -/
def mutateParticles (ps : List Particle) (rate : ℚ) (sample : List Nat)
    (perturb : Nat → Vec2) : List Particle :=
  let chosen := sample.take (((ps.length : ℚ) * rate).floor.toNat)
  ((List.range ps.length).zip ps).map (fun ip =>
    if ip.1 ∈ chosen then
      { ip.2 with vel := ⟨ip.2.vel.x + (perturb ip.1).x, ip.2.vel.y + (perturb ip.1).y⟩ }
    else ip.2)

/-- `evolve_particles` (src/debug.py lines 89-98, src/koopahdrv0.py 77-89):
only when more than 100 particles exist does it compute the dispersion
fitness, possibly mutate a random sample, and increment the generation. -/
def evolve_particles (ps : List Particle) (params : EvoParams)
    (sample : List Nat) (perturb : Nat → Vec2) : List Particle × EvoParams :=
  if ps.length > 100 then
    let ps' := if fitnessBelow ps params.fitness_threshold then
                 mutateParticles ps params.mutation_rate sample perturb
               else ps
    (ps', { params with generation := params.generation + 1 })
  else (ps, params)

-- ========== MarioForeverEngine (src/debug.py) ==========

/-- Physics constants of src/debug.py lines 21-31 (exact rationals). -/
def MARIO_WALK_SPEED : ℚ := 3.5
def MARIO_RUN_SPEED : ℚ := 6.5
def MARIO_ACCELERATION : ℚ := 0.3
def MARIO_FRICTION : ℚ := 0.15
def MARIO_AIR_FRICTION : ℚ := 0.05
def MARIO_JUMP_POWER : ℚ := -11.5
def MARIO_RUN_JUMP_POWER : ℚ := -13.0
def MARIO_GRAVITY : ℚ := 0.45
def MARIO_MAX_FALL : ℚ := 12.0
def MARIO_JUMP_HOLD_GRAVITY : ℚ := 0.25

/-- The GameState enumeration of src/debug.py. -/
inductive GameState where
  | WORLD_MAP
  | LEVEL
  | BONUS
  | CASTLE
  | AIRSHIP
  | GAME_OVER
  | VICTORY
  | PAUSE
deriving DecidableEq

/-- The PowerUp enumeration of src/debug.py (Mario Forever tiers). -/
inductive PowerUp where
  | SMALL
  | SUPER
  | FIRE
  | BEET
  | HAMMER
  | TANOOKI
deriving DecidableEq

/-- The `self.mario` state dictionary of src/debug.py (lines 119-136). -/
structure Mario where
  pos : Vec2
  vel : Vec2
  power : PowerUp
  on_ground : Bool
  facing_right : Bool
  invincible : Int
  can_shoot : Bool
  shoot_cooldown : Int
  running : Bool
  jumping : Bool
  jump_held : Bool
  jump_timer : Int
  ducking : Bool
  in_pipe : Bool
  animation_frame : Int
  animation_timer : Int
deriving DecidableEq

/-- A platform entry of the generated level: rect + type string +
collidable flag. -/
structure Platform where
  rect : Rect
  ptype : String
  collision : Bool
deriving DecidableEq

/-- A block entry: rect, kind string ("question"/"brick"), contents string
("coin"/"mushroom"/"flower"/"star", the `.get('contains','coin')` default),
and the struck flag `hit`. -/
structure Block where
  rect : Rect
  btype : String
  contains : String
  hit : Bool
deriving DecidableEq

/-- An enemy entry as generated by src/debug.py `generate_level`. -/
structure Enemy where
  etype : String
  pos : Vec2
  vel : Vec2
  patrol_range : ℚ × ℚ
deriving DecidableEq

/-- A pipe entry; only the fields read by the embedded code are kept
(`type` and `destination` feed rendering / the stubbed teleport only). -/
structure Pipe where
  rect : Rect
  enterable : Bool
deriving DecidableEq

/-- The level dictionary produced by `generate_level`.  The collections the
embedded code never reads (powerups, decorations, checkpoints, exit) are
omitted. -/
structure LevelData where
  platforms : List Platform
  enemies : List Enemy
  blocks : List Block
  pipes : List Pipe
deriving DecidableEq

/-- The engine state of src/debug.py touched by the embedded methods.
`current_level_data` is `None` or a level dict (a generated dict is never
falsy, so the Python truthiness test `not self.current_level_data` is
exactly `Option.isNone` here). -/
structure Engine where
  mario : Mario
  lives : Int
  coins : Int
  score : Int
  time : Int
  state : GameState
  paused : Bool
  current_level_data : Option LevelData
deriving DecidableEq

/-- `get_mario_rect` (src/debug.py lines 394-404): width 24, height 30 when
Small, else 40 (30 when ducking); pygame.Rect truncates the float position. -/
def get_mario_rect (m : Mario) : Rect :=
  let height : Int := if m.power = PowerUp.SMALL then 30 else if m.ducking then 30 else 40
  ⟨qtrunc m.pos.x, qtrunc m.pos.y, 24, height⟩

/-- `hit_block` (src/debug.py lines 406-433).  Returns the updated
(mario, coins, score, block).  Each photon burst call site is noted.
Brick destruction requires a non-Small tier. -/
def hit_block (m : Mario) (coins score : Int) (b : Block) :
    Mario × Int × Int × Block :=
  if b.btype = "question" ∧ b.hit = false then
    let b' := { b with hit := true }
    if b.contains = "coin" then
      (m, coins + 1, score + 200, b')        -- + photon burst
    else if b.contains = "mushroom" then
      if m.power = PowerUp.SMALL then
        ({ m with power := PowerUp.SUPER }, coins, score, b')  -- + photon burst
      else
        (m, coins, score + 1000, b')         -- + photon burst
    else if b.contains = "flower" then
      ({ m with power := PowerUp.FIRE }, coins, score, b')     -- + photon burst
    else if b.contains = "star" then
      ({ m with invincible := 600 }, coins, score, b')         -- + photon burst
    else
      (m, coins, score, b')
  else if b.btype = "brick" then
    if m.power ≠ PowerUp.SMALL then
      (m, coins, score + 50, { b with hit := true })           -- + photon burst
    else (m, coins, score, b)
  else (m, coins, score, b)

/-- `reset_level` (src/debug.py lines 468-474): respawn the character and
replace the level with a freshly generated one (`fresh` is the oracle for
the random `generate_level` output). -/
def reset_level (e : Engine) (fresh : LevelData) : Engine :=
  { e with mario := { e.mario with pos := ⟨100, 400⟩, vel := ⟨0, 0⟩, invincible := 0 },
           time := 400,
           current_level_data := some fresh }

/-- `damage_mario` (src/debug.py lines 435-450): no effect while
invincible; at a tier above Small demote to Small with a 120-frame
invincibility window; at Small lose a life and either go to game over or
reset the level. -/
def damage_mario (e : Engine) (fresh : LevelData) : Engine :=
  if e.mario.invincible > 0 then e
  else if e.mario.power ≠ PowerUp.SMALL then
    { e with mario := { e.mario with power := PowerUp.SMALL, invincible := 120 } } -- + photon burst
  else if e.lives - 1 ≤ 0 then
    { e with lives := e.lives - 1, state := GameState.GAME_OVER }
  else reset_level { e with lives := e.lives - 1 } fresh

/-- One platform iteration of the `check_collisions` platform loop
(src/debug.py lines 346-364).  `r0` is the mario rect computed once at
entry of `check_collisions` (the source never recomputes it after the
position is mutated); velocity tests read the current, mutated state. -/
def platformStep (r0 : Rect) (m : Mario) (p : Platform) : Mario :=
  if p.collision = true ∧ collideRect r0 p.rect = true then
    if m.vel.y > 0 ∧ r0.y + r0.h > p.rect.y then
      { m with pos := ⟨m.pos.x, ((p.rect.y - r0.h : Int) : ℚ)⟩,
               vel := ⟨m.vel.x, 0⟩, on_ground := true, jump_timer := 0 }
    else if m.vel.y < 0 ∧ r0.y < p.rect.y + p.rect.h then
      { m with pos := ⟨m.pos.x, ((p.rect.y + p.rect.h : Int) : ℚ)⟩,
               vel := ⟨m.vel.x, 0⟩ }
    else if m.vel.x > 0 ∧ r0.x + r0.w > p.rect.x then
      { m with pos := ⟨((p.rect.x - r0.w : Int) : ℚ), m.pos.y⟩,
               vel := ⟨0, m.vel.y⟩ }
    else if m.vel.x < 0 ∧ r0.x < p.rect.x + p.rect.w then
      { m with pos := ⟨((p.rect.x + p.rect.w : Int) : ℚ), m.pos.y⟩,
               vel := ⟨0, m.vel.y⟩ }
    else m
  else m

/-- One block iteration of the `check_collisions` block loop (src/debug.py
lines 367-373): an unstruck overlapped block struck from below calls
`hit_block`, snaps the position to the block's underside, and bounces the
character down with velocity 1. -/
def blockStep (r0 : Rect) (st : Mario × Int × Int) (b : Block) :
    (Mario × Int × Int) × Block :=
  if b.hit = false ∧ collideRect r0 b.rect = true then
    if st.1.vel.y < 0 ∧ r0.y < b.rect.y + b.rect.h then
      let res := hit_block st.1 st.2.1 st.2.2 b
      (({ res.1 with pos := ⟨res.1.pos.x, ((b.rect.y + b.rect.h : Int) : ℚ)⟩,
                     vel := ⟨res.1.vel.x, 1⟩ },
         res.2.1, res.2.2.1), res.2.2.2)
    else (st, b)
  else (st, b)

/-- The block loop: state-passing map over the block list (blocks are
mutated in place in the source, the list itself is never resized). -/
def blockPhase (r0 : Rect) : Mario × Int × Int → List Block →
    (Mario × Int × Int) × List Block
  | st, [] => (st, [])
  | st, b :: bs =>
    let sb := blockStep r0 st b
    let rest := blockPhase r0 sb.1 bs
    (rest.1, sb.2 :: rest.2)

/-- The enemies of the current level ([] when no level is loaded). -/
def levelEnemies (e : Engine) : List Enemy :=
  (e.current_level_data.map LevelData.enemies).getD []

/-- The pipes of the current level.  (With no level loaded CPython would
raise AttributeError on `None.get`; no claim exercises that path.) -/
def levelPipes (e : Engine) : List Pipe :=
  (e.current_level_data.map LevelData.pipes).getD []

/-- Python `list.remove`: drop the first element equal to `en`. -/
def eraseFirst (ens : List Enemy) (en : Enemy) : List Enemy :=
  match ens with
  | [] => []
  | a :: rest => if a = en then rest else a :: eraseFirst rest en

/-- Remove one enemy from the current level (the source removes from
`self.current_level_data['enemies']`). -/
def removeEnemy (e : Engine) (en : Enemy) : Engine :=
  { e with current_level_data :=
      e.current_level_data.map (fun l => { l with enemies := eraseFirst l.enemies en }) }

/-- The enemy loop of `check_collisions` (src/debug.py lines 376-392).
The source iterates the live enemy list while removing from it, so CPython
skips the element that follows a removal: we model the loop as an index
walk over the live list (index `i`), with `fuel` bounding the iteration
count by the entry length.  `fresh k` is the oracle for the k-th freshly
generated level should `damage_mario` reset the level mid-loop.  (After
such a reset CPython would keep iterating the detached old list and raise
on the next removal; no reachable claim state enters that path.) -/
def enemyRect (en : Enemy) : Rect := ⟨qtrunc en.pos.x, qtrunc en.pos.y, 30, 30⟩

/-- The enemy loop proper; `enemyRect` above is the per-enemy
`pygame.Rect(enemy['pos'][0], enemy['pos'][1], 30, 30)`. -/
def enemyPhase (r0 : Rect) (fresh : Nat → LevelData) :
    Nat → Nat → Nat → Engine → Engine
  | 0, _, _, e => e
  | fuel + 1, i, k, e =>
    if h : i < (levelEnemies e).length then
      if collideRect r0 (enemyRect ((levelEnemies e).get ⟨i, h⟩)) = true then
        if e.mario.invincible > 0 then
          -- destroy enemy, +100 points, photon burst
          enemyPhase r0 fresh fuel (i + 1) k
            (removeEnemy { e with score := e.score + 100 } ((levelEnemies e).get ⟨i, h⟩))
        else if e.mario.vel.y > 0 ∧
            r0.y + r0.h < (enemyRect ((levelEnemies e).get ⟨i, h⟩)).y + 15 then
          -- stomp: destroy enemy, +100 points, bounce up, photon burst
          enemyPhase r0 fresh fuel (i + 1) k
            (removeEnemy { e with score := e.score + 100,
                                  mario := { e.mario with vel := ⟨e.mario.vel.x, -8⟩ } }
              ((levelEnemies e).get ⟨i, h⟩))
        else
          enemyPhase r0 fresh fuel (i + 1) (k + 1) (damage_mario e (fresh k))
      else enemyPhase r0 fresh fuel (i + 1) k e
    else e

/-- `check_collisions` (src/debug.py lines 337-392): early return with no
level loaded; otherwise clear `on_ground`, then resolve platforms, blocks
and enemies in that order against the entry-time mario rect `r0`. -/
def check_collisions (e : Engine) (fresh : Nat → LevelData) : Engine :=
  match e.current_level_data with
  | none => e
  | some lvl =>
    let r0 := get_mario_rect e.mario
    let m0 := { e.mario with on_ground := false }
    let m1 := lvl.platforms.foldl (platformStep r0) m0
    let bres := blockPhase r0 (m1, e.coins, e.score) lvl.blocks
    let e2 := { e with mario := bres.1.1, coins := bres.1.2.1, score := bres.1.2.2,
                       current_level_data := some { lvl with blocks := bres.2 } }
    enemyPhase r0 fresh (levelEnemies e2).length 0 0 e2

/-- `update_mario_animation` (src/debug.py lines 452-466). -/
def update_mario_animation (m : Mario) : Mario :=
  if m.on_ground = true then
    if |m.vel.x| > 0.5 then
      if (m.animation_timer + 1) % 8 = 0 then
        { m with animation_timer := m.animation_timer + 1,
                 animation_frame := (m.animation_frame + 1) % 3 }
      else { m with animation_timer := m.animation_timer + 1 }
    else { m with animation_timer := m.animation_timer + 1, animation_frame := 0 }
  else { m with animation_timer := m.animation_timer + 1, animation_frame := 4 }

/-- Horizontal acceleration toward `target_speed = 0` (src/debug.py lines
292-302; `max_speed` is computed but unused there). -/
def physicsAccelStep (m : Mario) : Mario :=
  if m.vel.x < 0 then { m with vel := ⟨qmin (m.vel.x + MARIO_ACCELERATION) 0, m.vel.y⟩ }
  else if m.vel.x > 0 then { m with vel := ⟨qmax (m.vel.x - MARIO_ACCELERATION) 0, m.vel.y⟩ }
  else m

/-- Friction (src/debug.py lines 304-311): ground friction with a snap to
zero below the friction constant, else air friction. -/
def physicsFrictionStep (m : Mario) : Mario :=
  if m.on_ground = true then
    if |m.vel.x| < MARIO_FRICTION then { m with vel := ⟨0, m.vel.y⟩ }
    else { m with vel := ⟨m.vel.x * (1 - MARIO_FRICTION), m.vel.y⟩ }
  else { m with vel := ⟨m.vel.x * (1 - MARIO_AIR_FRICTION), m.vel.y⟩ }

/-- Gravity and terminal velocity (src/debug.py lines 313-322): reduced
hold gravity while rising with jump held, clamped to the max fall speed. -/
def physicsGravityStep (m : Mario) : Mario :=
  if m.on_ground = false then
    let vy := if m.jump_held = true ∧ m.vel.y < 0 then m.vel.y + MARIO_JUMP_HOLD_GRAVITY
              else m.vel.y + MARIO_GRAVITY
    { m with vel := ⟨m.vel.x, qmin vy MARIO_MAX_FALL⟩ }
  else m

/-- Position integration and the left level boundary (src/debug.py lines
324-329). -/
def physicsMoveStep (m : Mario) : Mario :=
  { m with pos := ⟨qmax 0 (m.pos.x + m.vel.x), m.pos.y + m.vel.y⟩ }

/-- `update_mario_physics` (src/debug.py lines 285-335): integrate
acceleration, friction, gravity and position, then delegate to
`check_collisions` and advance the animation.  (`prev_pos` is stored in
the source but never read.) -/
def update_mario_physics (e : Engine) (fresh : Nat → LevelData) : Engine :=
  let m := physicsMoveStep (physicsGravityStep (physicsFrictionStep (physicsAccelStep e.mario)))
  let e2 := check_collisions { e with mario := m } fresh
  { e2 with mario := update_mario_animation e2.mario }

/-- The per-tick logical input snapshot consumed by `handle_input`
(src/debug.py lines 477-552).  `jump` and `run` already include the alias
keys ORed in by the source (`any(keys[k] for k in alt_controls[...])`). -/
structure Keys where
  left : Bool
  right : Bool
  jump : Bool
  run : Bool
  down : Bool
  pause : Bool
deriving DecidableEq

/-- Movement keys (src/debug.py lines 491-499): left/right directly set the
horizontal velocity from the walk or run speed, using the `running` flag as
it was on the previous frame (the flag is updated afterwards). -/
def inputMoveStep (k : Keys) (m : Mario) : Mario :=
  if k.left = true then
    { m with vel := ⟨if m.running = false then -MARIO_WALK_SPEED else -MARIO_RUN_SPEED, m.vel.y⟩,
             facing_right := false }
  else if k.right = true then
    { m with vel := ⟨if m.running = false then MARIO_WALK_SPEED else MARIO_RUN_SPEED, m.vel.y⟩,
             facing_right := true }
  else m

/-- `self.mario['running'] = keys[run] or any(alt run keys)` (line 502). -/
def inputRunStep (k : Keys) (m : Mario) : Mario :=
  { m with running := k.run }

/-- The fire branch (src/debug.py lines 504-507): holding run at Fire tier
with the cooldown expired fires (`shoot_fireball` only emits particles)
and rearms the 15-frame cooldown. -/
def inputFireStep (m : Mario) : Mario :=
  if m.running = true ∧ m.power = PowerUp.FIRE ∧ m.can_shoot = true then
    { m with can_shoot := false, shoot_cooldown := 15 }   -- + photon burst
  else m

/-- The jump branch (src/debug.py lines 509-531): on a press, a jump fires
only from the ground with the `jumping` flag still clear; the impulse is
the running-jump power when the current horizontal speed exceeds the walk
speed.  Releasing the button clears both `jumping` and `jump_held`. -/
def inputJumpStep (k : Keys) (m : Mario) : Mario :=
  if k.jump = true then
    if m.on_ground = true ∧ m.jumping = false then
      { m with
        vel := ⟨m.vel.x, if |m.vel.x| > MARIO_WALK_SPEED then MARIO_RUN_JUMP_POWER else MARIO_JUMP_POWER⟩,
        jumping := true, jump_timer := 0, jump_held := true }  -- + photon bursts
    else { m with jump_held := true }
  else { m with jumping := false, jump_held := false }

/-- `self.mario['ducking'] = keys[down] and on_ground` (line 534). -/
def inputDuckStep (k : Keys) (m : Mario) : Mario :=
  { m with ducking := k.down && m.on_ground }

/-- One iteration of the pipe-entry loop body: an enterable overlapping
pipe is entered (`enter_pipe` sets `in_pipe` and emits particles); the
mario rect is recomputed per pipe. -/
def pipeVisit (mm : Mario) (pp : Pipe) : Mario :=
  if pp.enterable = true ∧ collideRect (get_mario_rect mm) pp.rect = true then
    { mm with in_pipe := true }                            -- + photon burst
  else mm

/-- The pipe-entry loop (src/debug.py lines 537-542): runs only while
holding down on the ground. -/
def inputPipeStep (k : Keys) (pipes : List Pipe) (m : Mario) : Mario :=
  if k.down = true ∧ m.on_ground = true then
    pipes.foldl pipeVisit m
  else m

/-- The shoot-cooldown bookkeeping (src/debug.py lines 545-548). -/
def inputCooldownStep (m : Mario) : Mario :=
  if m.shoot_cooldown > 0 then { m with shoot_cooldown := m.shoot_cooldown - 1 }
  else { m with can_shoot := true }

/-- `handle_input` (src/debug.py lines 477-552), LEVEL state: the pause
toggle returns immediately; a paused engine ignores input; otherwise the
movement, running, fire, jump, duck, pipe and cooldown sections run in
source order.  The WORLD_MAP branch is `pass`. -/
def handle_input (e : Engine) (k : Keys) : Engine :=
  if e.state = GameState.LEVEL then
    if k.pause = true then { e with paused := !e.paused }
    else if e.paused = true then e
    else
      { e with mario :=
          inputCooldownStep (inputPipeStep k (levelPipes e)
            (inputDuckStep k (inputJumpStep k
              (inputFireStep (inputRunStep k (inputMoveStep k e.mario)))))) }
  else e

/-- The per-tick invincibility decrement in the main loop (src/debug.py
lines 911-913): `if invincible > 0: invincible -= 1`. -/
def invincibilityDecay (e : Engine) : Engine :=
  if e.mario.invincible > 0 then
    { e with mario := { e.mario with invincible := e.mario.invincible - 1 } }
  else e

/-- The engine operations that can touch the character state during play,
used to state temporal properties over arbitrary tick sequences.  Oracles
for randomly generated levels ride on the constructors. -/
inductive EngineOp where
  | opDecay : EngineOp
  | opDamage : LevelData → EngineOp
  | opHitBlock : Block → EngineOp
  | opInput : Keys → EngineOp
  | opPhysics : (Nat → LevelData) → EngineOp

/-- Apply one engine operation (each maps to the corresponding source
method; `opHitBlock` strikes the given block as the block loop does). -/
def applyOp (e : Engine) : EngineOp → Engine
  | .opDecay => invincibilityDecay e
  | .opDamage fresh => damage_mario e fresh
  | .opHitBlock b =>
    let res := hit_block e.mario e.coins e.score b
    { e with mario := res.1, coins := res.2.1, score := res.2.2.1 }
  | .opInput k => handle_input e k
  | .opPhysics fresh => update_mario_physics e fresh

-- ========== Giant-archetype level generation (src/koopahdrv0.py) ==========

/-- An enemy entry as touched by `_generate_giant_level`:
`size_multiplier` is the key the generator adds (its pre-existing absence
is modelled by the baseline value 1), `pos` the integer spawn position. -/
structure KEnemy where
  etype : String
  pos : Int × Int
  size_multiplier : Int
deriving DecidableEq

/-- The slice of a koopahdrv0 level record that `_generate_giant_level`
rewrites (platform rects, enemies, block rects). -/
structure KLevel where
  platforms : List Rect
  enemies : List KEnemy
  blocks : List Rect
deriving DecidableEq

/-- The per-rectangle transform of `_generate_giant_level`
(src/koopahdrv0.py lines 531-535 and 542-546): width, height and x double,
y is rescaled about the anchor height 300.  pygame.Rect's width/height and
x are independent fields, so the in-place assignment order is immaterial. -/
def giantRect (r : Rect) : Rect :=
  { x := r.x * 2, y := (r.y - 300) * 2 + 300, w := r.w * 2, h := r.h * 2 }

/-- The per-enemy transform of `_generate_giant_level` (lines 537-540). -/
def giantEnemy (en : KEnemy) : KEnemy :=
  { en with size_multiplier := 2,
            pos := (en.pos.1 * 2, (en.pos.2 - 300) * 2 + 300) }

/-- `_generate_giant_level` (src/koopahdrv0.py lines 527-548): generate a
standard level, then scale everything up.  `baseline` is the oracle for
the random `_generate_standard_level(world_num)` output. -/
def generate_giant_level (baseline : KLevel) : KLevel :=
  { platforms := baseline.platforms.map giantRect,
    enemies := baseline.enemies.map giantEnemy,
    blocks := baseline.blocks.map giantRect }

-- ========== Helper lemmas ==========

lemma emit_photon_burst_length (ps : List Particle) (x y : ℚ) (count : Int)
    (color : Int × Int × Int) (spread : ℚ) (velO : Nat → Vec2) :
    (emit_photon_burst ps x y count color spread velO).length
      = ps.length + (min count (photon_limit - (ps.length : Int))).toNat := by
  simp [emit_photon_burst]

lemma applyEmit_length_le (ps : List Particle) (r : EmitReq)
    (h : ps.length ≤ 10000) : (applyEmit ps r).length ≤ 10000 := by
  have hmin : (min r.count (photon_limit - (ps.length : Int))).toNat
      ≤ (photon_limit - (ps.length : Int)).toNat :=
    Int.toNat_le_toNat (min_le_right _ _)
  have hlen := emit_photon_burst_length ps r.x r.y r.count r.color r.spread r.velO
  unfold applyEmit
  rw [hlen]
  unfold photon_limit at hmin ⊢
  omega

-- ========== C4 ==========

/-- C4: starting from any population not exceeding the cap, any sequence of
`emit_photon_burst` calls keeps the particle count at or below the cap
`photon_limit = 10000`; and a single emit of count 20 at population
cap − 5 = 9995 appends exactly 5 particles. -/
theorem C4_population_cap :
    (∀ (ps : List Particle) (rs : List EmitReq), ps.length ≤ 10000 →
        (rs.foldl applyEmit ps).length ≤ 10000) ∧
    (∀ (ps : List Particle) (r : EmitReq), ps.length = 9995 → r.count = 20 →
        (applyEmit ps r).length = 9995 + 5) := by
  constructor
  · intro ps rs
    induction rs generalizing ps with
    | nil => intro h; simpa using h
    | cons r rs ih =>
      intro h
      simpa using ih (applyEmit ps r) (applyEmit_length_le ps r h)
  · intro ps r hlen hcount
    unfold applyEmit
    rw [emit_photon_burst_length, hlen, hcount]
    rfl

def particle0 : Particle := ⟨⟨0, 0⟩, ⟨0, 0⟩, (255, 255, 0), 255, []⟩

def emitReq20 : EmitReq := ⟨100, 100, 20, (255, 255, 0), 10, fun _ => ⟨0, 0⟩⟩

/-- C4 witness: concrete population of 9995 particles, emit of 20. -/
theorem C4_population_cap_witness :
    (List.replicate 9995 particle0).length = 9995 ∧
    (applyEmit (List.replicate 9995 particle0) emitReq20).length = 9995 + 5 :=
  ⟨List.length_replicate 9995 particle0,
   C4_population_cap.2 (List.replicate 9995 particle0) emitReq20
     (List.length_replicate 9995 particle0) rfl⟩

-- ========== C7 ==========

/-- C7: giant-archetype generation maps every baseline platform rectangle
(x, y, w, h) to (2x, (y − 300)·2 + 300, 2w, 2h); at (200, 400, 100, 20)
this yields exactly (400, 500, 200, 40). -/
theorem C7_giant_scale :
    (∀ (baseline : KLevel) (r : Rect), r ∈ baseline.platforms →
        Rect.mk (r.x * 2) ((r.y - 300) * 2 + 300) (r.w * 2) (r.h * 2)
          ∈ (generate_giant_level baseline).platforms) ∧
    giantRect ⟨200, 400, 100, 20⟩ = ⟨400, 500, 200, 40⟩ := by
  constructor
  · intro baseline r hr
    show giantRect r ∈ (generate_giant_level baseline).platforms
    exact List.mem_map_of_mem giantRect hr
  · rfl

def baselineOnePlatform : KLevel := ⟨[⟨200, 400, 100, 20⟩], [], []⟩

/-- C7 witness: the concrete baseline platform of the scenario. -/
theorem C7_giant_scale_witness :
    Rect.mk (200 * 2) ((400 - 300) * 2 + 300) (100 * 2) (20 * 2)
      ∈ (generate_giant_level baselineOnePlatform).platforms :=
  C7_giant_scale.1 baselineOnePlatform ⟨200, 400, 100, 20⟩ (by decide)

-- ========== C10 ==========

/-- C10: with at most 100 particles, `evolve_particles` changes nothing
(population, every particle, and the generation counter are returned
untouched); the generation counter increments exactly on the calls where
the population exceeds 100. -/
theorem C10_evolve_noop :
    ∀ (ps : List Particle) (params : EvoParams) (sample : List Nat)
      (perturb : Nat → Vec2),
      (ps.length ≤ 100 → evolve_particles ps params sample perturb = (ps, params)) ∧
      (evolve_particles ps params sample perturb).2.generation =
        (if 100 < ps.length then params.generation + 1 else params.generation) := by
  intro ps params sample perturb
  constructor
  · intro h
    have hng : ¬ ps.length > 100 := by omega
    unfold evolve_particles
    rw [if_neg hng]
  · by_cases h : ps.length > 100
    · unfold evolve_particles
      rw [if_pos h, if_pos h]
    · unfold evolve_particles
      rw [if_neg h, if_neg h]

def evoParams0 : EvoParams := ⟨0.1, 0.7, 0⟩

/-- C10 witness: the empty population. -/
theorem C10_evolve_noop_witness :
    ([] : List Particle).length ≤ 100 ∧
      evolve_particles [] evoParams0 [] (fun _ => ⟨0, 0⟩) = ([], evoParams0) :=
  ⟨by decide, (C10_evolve_noop [] evoParams0 [] (fun _ => ⟨0, 0⟩)).1 (by decide)⟩

-- ========== C3 ==========

/-- C3: with the invincibility timer at 0, `damage_mario` at a tier above
Small sets the tier to exactly Small and the timer to exactly 120 without
touching the life count; at tier Small it decrements the life count by
exactly 1 and leaves the tier Small. -/
theorem C3_damage_transitions (e : Engine) (fresh : LevelData)
    (h0 : e.mario.invincible = 0) :
    (e.mario.power ≠ PowerUp.SMALL →
       (damage_mario e fresh).mario.power = PowerUp.SMALL ∧
       (damage_mario e fresh).mario.invincible = 120 ∧
       (damage_mario e fresh).lives = e.lives) ∧
    (e.mario.power = PowerUp.SMALL →
       (damage_mario e fresh).lives = e.lives - 1 ∧
       (damage_mario e fresh).mario.power = PowerUp.SMALL) := by
  have hng : ¬ e.mario.invincible > 0 := by omega
  constructor
  · intro hp
    unfold damage_mario
    rw [if_neg hng, if_pos hp]
    exact ⟨rfl, rfl, rfl⟩
  · intro hp
    have hnp : ¬ e.mario.power ≠ PowerUp.SMALL := by simp [hp]
    unfold damage_mario
    rw [if_neg hng, if_neg hnp]
    by_cases hl : e.lives - 1 ≤ 0
    · rw [if_pos hl]
      exact ⟨rfl, hp⟩
    · rw [if_neg hl]
      unfold reset_level
      exact ⟨rfl, hp⟩

def marioFire : Mario :=
  { pos := ⟨100, 400⟩, vel := ⟨0, 0⟩, power := PowerUp.FIRE, on_ground := true,
    facing_right := true, invincible := 0, can_shoot := true, shoot_cooldown := 0,
    running := false, jumping := false, jump_held := false, jump_timer := 0,
    ducking := false, in_pipe := false, animation_frame := 0, animation_timer := 0 }

def levelEmpty : LevelData := ⟨[], [], [], []⟩

def engineFire : Engine :=
  { mario := marioFire, lives := 5, coins := 0, score := 0, time := 400,
    state := GameState.LEVEL, paused := false, current_level_data := some levelEmpty }

/-- C3 witness: damage at Fire tier with the timer at 0. -/
theorem C3_damage_transitions_witness :
    engineFire.mario.invincible = 0 ∧
    ((damage_mario engineFire levelEmpty).mario.power = PowerUp.SMALL ∧
     (damage_mario engineFire levelEmpty).mario.invincible = 120 ∧
     (damage_mario engineFire levelEmpty).lives = engineFire.lives) :=
  ⟨rfl, (C3_damage_transitions engineFire levelEmpty rfl).1 (by decide)⟩

-- ========== C8 ==========

/-- C8: in both per-frame particle update loops, every surviving particle
comes from stepping a particle of the input population with its life
lowered by exactly the fixed per-frame amount (3 resp. 2); if every input
life is at most 255, every surviving life lies in (0, 255]; and no
particle whose decremented life is ≤ 0 survives the call. -/
theorem C8_particle_life (ps : List Particle) (hb : ∀ p ∈ ps, p.life ≤ 255) :
    (∀ q ∈ render_level_particles ps,
        0 < q.life ∧ q.life ≤ 252 ∧
        ∃ p ∈ ps, q = stepParticle p ∧ q.life = p.life - 3) ∧
    (∀ q ∈ render_level_particlesK ps,
        0 < q.life ∧ q.life ≤ 253 ∧
        ∃ p ∈ ps, q = stepParticleK p ∧ q.life = p.life - 2) := by
  constructor
  · intro q hq
    rw [render_level_particles, List.mem_filter] at hq
    obtain ⟨hmem, hpos⟩ := hq
    rw [List.mem_map] at hmem
    obtain ⟨p, hp, hfp⟩ := hmem
    have hlife : q.life = p.life - 3 := by rw [← hfp]; rfl
    have hdec : (0 : Int) < q.life := by simpa using hpos
    exact ⟨hdec, by have := hb p hp; omega, p, hp, hfp.symm, hlife⟩
  · intro q hq
    rw [render_level_particlesK, List.mem_filter] at hq
    obtain ⟨hmem, hpos⟩ := hq
    rw [List.mem_map] at hmem
    obtain ⟨p, hp, hfp⟩ := hmem
    have hlife : q.life = p.life - 2 := by rw [← hfp]; rfl
    have hdec : (0 : Int) < q.life := by simpa using hpos
    exact ⟨hdec, by have := hb p hp; omega, p, hp, hfp.symm, hlife⟩

/-- C8 witness: a single fresh particle with full life 255. -/
theorem C8_particle_life_witness :
    (∀ p ∈ [particle0], p.life ≤ 255) ∧
    (∀ q ∈ render_level_particles [particle0],
        0 < q.life ∧ q.life ≤ 252 ∧
        ∃ p ∈ [particle0], q = stepParticle p ∧ q.life = p.life - 3) :=
  ⟨by decide, (C8_particle_life [particle0] (by decide)).1⟩

-- ========== C1 (corrected) ==========

def marioAir : Mario :=
  { pos := ⟨100, 100⟩, vel := ⟨0, 0⟩, power := PowerUp.SMALL, on_ground := false,
    facing_right := true, invincible := 0, can_shoot := true, shoot_cooldown := 0,
    running := false, jumping := false, jump_held := false, jump_timer := 0,
    ducking := false, in_pipe := false, animation_frame := 0, animation_timer := 0 }

def engineNoLevel : Engine :=
  { mario := marioAir, lives := 5, coins := 0, score := 0, time := 400,
    state := GameState.LEVEL, paused := false, current_level_data := none }

/-- C1 counterexample: with no level loaded, `update_mario_physics` is not
a no-op — the airborne character with zero velocity still gains gravity:
velocity.y goes from 0 to 0.45 and position.y moves by 0.45. -/
theorem C1_counterexample :
    engineNoLevel.current_level_data = none ∧
    engineNoLevel.mario.vel.y = 0 ∧
    (update_mario_physics engineNoLevel (fun _ => levelEmpty)).mario.vel.y = 0.45 ∧
    (update_mario_physics engineNoLevel (fun _ => levelEmpty)).mario.pos.y = 100.45 := by
  refine ⟨rfl, rfl, ?_, ?_⟩ <;>
    norm_num [update_mario_physics, physicsMoveStep, physicsGravityStep,
      physicsFrictionStep, physicsAccelStep, check_collisions,
      update_mario_animation, engineNoLevel, marioAir, qmin, qmax,
      MARIO_GRAVITY, MARIO_MAX_FALL, MARIO_AIR_FRICTION, MARIO_JUMP_HOLD_GRAVITY]

/-- C1 amended: with no level layout loaded, the collision-resolution step
`check_collisions` (not the whole physics update) is a no-op: it returns
the engine state unchanged.  `update_mario_physics` itself still
integrates acceleration, friction, gravity and position. -/
theorem C1_no_level_collision_noop (e : Engine) (fresh : Nat → LevelData)
    (h : e.current_level_data = none) : check_collisions e fresh = e := by
  unfold check_collisions
  rw [h]

/-- C1 witness: the concrete engine with no level. -/
theorem C1_no_level_collision_noop_witness :
    engineNoLevel.current_level_data = none ∧
    check_collisions engineNoLevel (fun _ => levelEmpty) = engineNoLevel :=
  ⟨rfl, C1_no_level_collision_noop engineNoLevel (fun _ => levelEmpty) rfl⟩

-- ========== C6 (corrected) ==========

def marioSuper : Mario := { marioAir with power := PowerUp.SUPER }

def mushroomBlock : Block := ⟨⟨100, 300, 32, 32⟩, "question", "mushroom", false⟩

/-- C6 counterexample: striking an unstruck mushroom question block at tier
Super — which is not the maximum tier (TANOOKI) — does NOT promote the
tier: the code keeps Super and awards 1000 points instead (the points
branch runs for every non-Small tier, not only at the maximum). -/
theorem C6_counterexample :
    marioSuper.power = PowerUp.SUPER ∧ PowerUp.SUPER ≠ PowerUp.TANOOKI ∧
    (hit_block marioSuper 0 0 mushroomBlock).1.power = PowerUp.SUPER ∧
    (hit_block marioSuper 0 0 mushroomBlock).2.2.1 = 1000 := by
  refine ⟨rfl, by decide, ?_, ?_⟩ <;> decide

/-- C6 amended: striking an unstruck question block containing a mushroom
promotes the tier only when it is Small (Small becomes Super); at every
other tier 1000 points are awarded and the tier is unchanged; a flower
block sets the tier to Fire; in each case the block's struck flag becomes
true. -/
theorem C6_block_effects (m : Mario) (coins score : Int) (b : Block)
    (ht : b.btype = "question") (hh : b.hit = false) :
    (b.contains = "mushroom" → m.power = PowerUp.SMALL →
       (hit_block m coins score b).1.power = PowerUp.SUPER ∧
       (hit_block m coins score b).2.2.2.hit = true) ∧
    (b.contains = "mushroom" → m.power ≠ PowerUp.SMALL →
       (hit_block m coins score b).1.power = m.power ∧
       (hit_block m coins score b).2.2.1 = score + 1000 ∧
       (hit_block m coins score b).2.2.2.hit = true) ∧
    (b.contains = "flower" →
       (hit_block m coins score b).1.power = PowerUp.FIRE ∧
       (hit_block m coins score b).2.2.2.hit = true) := by
  have hq : b.btype = "question" ∧ b.hit = false := ⟨ht, hh⟩
  refine ⟨?_, ?_, ?_⟩
  · intro hc hp
    have h1 : ¬ b.contains = "coin" := by rw [hc]; decide
    unfold hit_block
    rw [if_pos hq, if_neg h1, if_pos hc, if_pos hp]
    exact ⟨rfl, rfl⟩
  · intro hc hp
    have h1 : ¬ b.contains = "coin" := by rw [hc]; decide
    unfold hit_block
    rw [if_pos hq, if_neg h1, if_pos hc, if_neg (by simpa using hp)]
    exact ⟨rfl, rfl, rfl⟩
  · intro hc
    have h1 : ¬ b.contains = "coin" := by rw [hc]; decide
    have h2 : ¬ b.contains = "mushroom" := by rw [hc]; decide
    unfold hit_block
    rw [if_pos hq, if_neg h1, if_neg h2, if_pos hc]
    exact ⟨rfl, rfl⟩

def marioSmall : Mario := marioAir

/-- C6 witness: a Small character striking the concrete mushroom block. -/
theorem C6_block_effects_witness :
    (hit_block marioSmall 0 0 mushroomBlock).1.power = PowerUp.SUPER ∧
    (hit_block marioSmall 0 0 mushroomBlock).2.2.2.hit = true :=
  (C6_block_effects marioSmall 0 0 mushroomBlock rfl rfl).1 rfl rfl

-- ========== C2 (corrected) ==========

lemma check_collisions_some (e : Engine) (lvl : LevelData) (fresh : Nat → LevelData)
    (hl : e.current_level_data = some lvl) :
    check_collisions e fresh =
      (let r0 := get_mario_rect e.mario
       let m0 := { e.mario with on_ground := false }
       let m1 := lvl.platforms.foldl (platformStep r0) m0
       let bres := blockPhase r0 (m1, e.coins, e.score) lvl.blocks
       let e2 := { e with mario := bres.1.1, coins := bres.1.2.1, score := bres.1.2.2,
                          current_level_data := some { lvl with blocks := bres.2 } }
       enemyPhase r0 fresh (levelEnemies e2).length 0 0 e2) := by
  unfold check_collisions
  rw [hl]

/-- C2 amended: resting contact does not set the ground flag — the landing
classification of `check_collisions` requires strictly downward motion.
For a character overlapping a collidable platform: if the vertical
velocity is strictly positive (downward) and the character's bottom is
below the platform top, one call sets `on_ground` and zeroes the vertical
velocity; but with both velocity components exactly 0 the call leaves the
velocity and position unchanged and `on_ground` is false. -/
theorem C2_rest_on_platform (e : Engine) (lvl : LevelData) (p : Platform)
    (fresh : Nat → LevelData)
    (hl : e.current_level_data = some lvl)
    (hps : lvl.platforms = [p]) (hbs : lvl.blocks = []) (hes : lvl.enemies = [])
    (hc : p.collision = true)
    (hcol : collideRect (get_mario_rect e.mario) p.rect = true) :
    (0 < e.mario.vel.y ∧
       (get_mario_rect e.mario).y + (get_mario_rect e.mario).h > p.rect.y →
       (check_collisions e fresh).mario.on_ground = true ∧
       (check_collisions e fresh).mario.vel.y = 0) ∧
    (e.mario.vel.x = 0 ∧ e.mario.vel.y = 0 →
       (check_collisions e fresh).mario.on_ground = false ∧
       (check_collisions e fresh).mario.vel = e.mario.vel ∧
       (check_collisions e fresh).mario.pos = e.mario.pos) := by
  have key : check_collisions e fresh =
      { e with mario := platformStep (get_mario_rect e.mario)
                          { e.mario with on_ground := false } p,
               current_level_data := some { lvl with blocks := ([] : List Block) } } := by
    rw [check_collisions_some e lvl fresh hl, hps, hbs]
    simp only [List.foldl, blockPhase, levelEnemies, hes, List.length_nil, enemyPhase]
  rw [key]
  constructor
  · intro hh
    unfold platformStep
    rw [if_pos ⟨hc, hcol⟩, if_pos hh]
    exact ⟨rfl, rfl⟩
  · intro hh
    have hvx : e.mario.vel.x = 0 := hh.1
    have hvy : e.mario.vel.y = 0 := hh.2
    have c1 : ¬ (({ e.mario with on_ground := false } : Mario).vel.y > 0 ∧
        (get_mario_rect e.mario).y + (get_mario_rect e.mario).h > p.rect.y) := by
      rintro ⟨h, -⟩
      rw [show ({ e.mario with on_ground := false } : Mario).vel = e.mario.vel from rfl,
          hvy] at h
      exact lt_irrefl 0 h
    have c2 : ¬ (({ e.mario with on_ground := false } : Mario).vel.y < 0 ∧
        (get_mario_rect e.mario).y < p.rect.y + p.rect.h) := by
      rintro ⟨h, -⟩
      rw [show ({ e.mario with on_ground := false } : Mario).vel = e.mario.vel from rfl,
          hvy] at h
      exact lt_irrefl 0 h
    have c3 : ¬ (({ e.mario with on_ground := false } : Mario).vel.x > 0 ∧
        (get_mario_rect e.mario).x + (get_mario_rect e.mario).w > p.rect.x) := by
      rintro ⟨h, -⟩
      rw [show ({ e.mario with on_ground := false } : Mario).vel = e.mario.vel from rfl,
          hvx] at h
      exact lt_irrefl 0 h
    have c4 : ¬ (({ e.mario with on_ground := false } : Mario).vel.x < 0 ∧
        (get_mario_rect e.mario).x < p.rect.x + p.rect.w) := by
      rintro ⟨h, -⟩
      rw [show ({ e.mario with on_ground := false } : Mario).vel = e.mario.vel from rfl,
          hvx] at h
      exact lt_irrefl 0 h
    have hm0 : platformStep (get_mario_rect e.mario) { e.mario with on_ground := false } p
        = { e.mario with on_ground := false } := by
      unfold platformStep
      rw [if_pos ⟨hc, hcol⟩, if_neg c1, if_neg c2, if_neg c3, if_neg c4]
    rw [hm0]
    exact ⟨rfl, rfl, rfl⟩

def groundPlatform : Platform := ⟨⟨0, 500, 200, 100⟩, "ground", true⟩

def levelOnePlatform : LevelData := ⟨[groundPlatform], [], [], []⟩

def marioResting : Mario := { marioAir with pos := ⟨50, 475⟩, on_ground := true }

def engineResting : Engine :=
  { engineNoLevel with mario := marioResting,
                       current_level_data := some levelOnePlatform }

/-- C2 counterexample: a character whose box overlaps a collidable ground
platform, at rest (vertical velocity exactly 0): after one
`check_collisions` call the on-ground flag is false, not true — the
landing branch demands a strictly positive vertical velocity, and the flag
was cleared unconditionally at entry. -/
theorem C2_counterexample :
    engineResting.mario.vel.y = 0 ∧
    groundPlatform.collision = true ∧
    collideRect (get_mario_rect engineResting.mario) groundPlatform.rect = true ∧
    (check_collisions engineResting (fun _ => levelEmpty)).mario.on_ground = false := by
  refine ⟨rfl, rfl, ?_, ?_⟩
  · norm_num [collideRect, get_mario_rect, qtrunc, engineResting, marioResting,
      marioAir, groundPlatform]
  · rw [check_collisions_some engineResting levelOnePlatform _ rfl]
    norm_num [levelOnePlatform, platformStep, blockPhase, levelEnemies, enemyPhase,
      groundPlatform, engineResting, marioResting, marioAir, collideRect,
      get_mario_rect, qtrunc]

def engineFalling : Engine :=
  { engineResting with mario := { marioResting with vel := ⟨0, 2⟩, on_ground := false } }

/-- C2 witness: the same geometry with downward velocity 2 does land. -/
theorem C2_rest_on_platform_witness :
    (check_collisions engineFalling (fun _ => levelEmpty)).mario.on_ground = true ∧
    (check_collisions engineFalling (fun _ => levelEmpty)).mario.vel.y = 0 :=
  (C2_rest_on_platform engineFalling levelOnePlatform groundPlatform
      (fun _ => levelEmpty) rfl rfl rfl rfl rfl
      (by norm_num [collideRect, get_mario_rect, qtrunc, engineFalling,
        engineResting, marioResting, marioAir, groundPlatform])).1
    ⟨by norm_num [engineFalling, engineResting, marioResting, marioAir],
     by norm_num [get_mario_rect, qtrunc, engineFalling, engineResting,
       marioResting, marioAir, groundPlatform]⟩

-- ========== C5 ==========

lemma inputMoveStep_fields (k : Keys) (m : Mario) :
    (inputMoveStep k m).vel.y = m.vel.y ∧ (inputMoveStep k m).on_ground = m.on_ground ∧
    (inputMoveStep k m).jumping = m.jumping ∧ (inputMoveStep k m).invincible = m.invincible := by
  unfold inputMoveStep
  split_ifs <;> exact ⟨rfl, rfl, rfl, rfl⟩

lemma inputFireStep_fields (m : Mario) :
    (inputFireStep m).vel = m.vel ∧ (inputFireStep m).on_ground = m.on_ground ∧
    (inputFireStep m).jumping = m.jumping ∧ (inputFireStep m).invincible = m.invincible := by
  unfold inputFireStep
  split_ifs <;> exact ⟨rfl, rfl, rfl, rfl⟩

lemma inputJumpStep_invincible (k : Keys) (m : Mario) :
    (inputJumpStep k m).invincible = m.invincible := by
  unfold inputJumpStep
  split_ifs <;> rfl

lemma pipeVisit_fields (mm : Mario) (pp : Pipe) :
    (pipeVisit mm pp).vel = mm.vel ∧ (pipeVisit mm pp).jumping = mm.jumping ∧
    (pipeVisit mm pp).invincible = mm.invincible := by
  unfold pipeVisit
  split_ifs <;> exact ⟨rfl, rfl, rfl⟩

lemma pipeFold_fields (ps : List Pipe) : ∀ m : Mario,
    (ps.foldl pipeVisit m).vel = m.vel ∧ (ps.foldl pipeVisit m).jumping = m.jumping ∧
    (ps.foldl pipeVisit m).invincible = m.invincible := by
  induction ps with
  | nil => intro m; exact ⟨rfl, rfl, rfl⟩
  | cons p ps ih =>
    intro m
    have h1 := pipeVisit_fields m p
    have h2 := ih (pipeVisit m p)
    exact ⟨h2.1.trans h1.1, h2.2.1.trans h1.2.1, h2.2.2.trans h1.2.2⟩

lemma inputPipeStep_fields (k : Keys) (ps : List Pipe) (m : Mario) :
    (inputPipeStep k ps m).vel = m.vel ∧ (inputPipeStep k ps m).jumping = m.jumping ∧
    (inputPipeStep k ps m).invincible = m.invincible := by
  unfold inputPipeStep
  split_ifs
  · exact pipeFold_fields ps m
  · exact ⟨rfl, rfl, rfl⟩

lemma inputCooldownStep_fields (m : Mario) :
    (inputCooldownStep m).vel = m.vel ∧ (inputCooldownStep m).jumping = m.jumping ∧
    (inputCooldownStep m).invincible = m.invincible := by
  unfold inputCooldownStep
  split_ifs <;> exact ⟨rfl, rfl, rfl⟩

lemma inputJumpStep_fire (k : Keys) (m : Mario) (hj : k.jump = true)
    (hg : m.on_ground = true) (hnj : m.jumping = false) :
    (inputJumpStep k m).vel.y =
      (if |m.vel.x| > MARIO_WALK_SPEED then MARIO_RUN_JUMP_POWER else MARIO_JUMP_POWER) ∧
    (inputJumpStep k m).jumping = true := by
  unfold inputJumpStep
  rw [if_pos hj, if_pos ⟨hg, hnj⟩]
  exact ⟨rfl, rfl⟩

/-- C5: in `handle_input` (LEVEL state, unpaused) a jump impulse reaches
the vertical velocity only on a ground-contact-to-press edge — jump held,
on-ground true, `jumping` flag still false from the previous frame; in
every other case the vertical velocity is untouched, and while the button
stays held the `jumping` flag stays set so held frames never re-trigger.
When the jump fires, the impulse is the running-jump power exactly when
the post-movement horizontal speed exceeds the walk speed. -/
theorem C5_jump_edge (e : Engine) (k : Keys)
    (hs : e.state = GameState.LEVEL) (hp : k.pause = false) (hq : e.paused = false) :
    (¬ (k.jump = true ∧ e.mario.on_ground = true ∧ e.mario.jumping = false) →
        (handle_input e k).mario.vel.y = e.mario.vel.y) ∧
    (k.jump = true ∧ e.mario.on_ground = true ∧ e.mario.jumping = false →
        (handle_input e k).mario.vel.y =
          (if |(inputMoveStep k e.mario).vel.x| > MARIO_WALK_SPEED
           then MARIO_RUN_JUMP_POWER else MARIO_JUMP_POWER) ∧
        (handle_input e k).mario.jumping = true) ∧
    (k.jump = true ∧ e.mario.jumping = true →
        (handle_input e k).mario.jumping = true ∧
        (handle_input e k).mario.vel.y = e.mario.vel.y) := by
  have hp' : ¬ k.pause = true := by rw [hp]; exact Bool.false_ne_true
  have hq' : ¬ e.paused = true := by rw [hq]; exact Bool.false_ne_true
  have hhi : (handle_input e k).mario =
      inputCooldownStep (inputPipeStep k (levelPipes e)
        (inputDuckStep k (inputJumpStep k
          (inputFireStep (inputRunStep k (inputMoveStep k e.mario)))))) := by
    unfold handle_input
    rw [if_pos hs, if_neg hp', if_neg hq']
  have hmv := inputMoveStep_fields k e.mario
  have hfr := inputFireStep_fields (inputRunStep k (inputMoveStep k e.mario))
  have h3vy : (inputFireStep (inputRunStep k (inputMoveStep k e.mario))).vel.y
      = e.mario.vel.y := by rw [hfr.1]; exact hmv.1
  have h3vx : (inputFireStep (inputRunStep k (inputMoveStep k e.mario))).vel.x
      = (inputMoveStep k e.mario).vel.x := by rw [hfr.1]; rfl
  have h3og : (inputFireStep (inputRunStep k (inputMoveStep k e.mario))).on_ground
      = e.mario.on_ground := hfr.2.1.trans hmv.2.1
  have h3j : (inputFireStep (inputRunStep k (inputMoveStep k e.mario))).jumping
      = e.mario.jumping := hfr.2.2.1.trans hmv.2.2.1
  have hrest : ∀ m : Mario,
      (inputCooldownStep (inputPipeStep k (levelPipes e) (inputDuckStep k m))).vel.y
        = m.vel.y ∧
      (inputCooldownStep (inputPipeStep k (levelPipes e) (inputDuckStep k m))).jumping
        = m.jumping := by
    intro m
    have hcd := inputCooldownStep_fields (inputPipeStep k (levelPipes e) (inputDuckStep k m))
    have hpp := inputPipeStep_fields k (levelPipes e) (inputDuckStep k m)
    constructor
    · rw [congrArg Vec2.y hcd.1, congrArg Vec2.y hpp.1]
      rfl
    · rw [hcd.2.1, hpp.2.1]
      rfl
  refine ⟨?_, ?_, ?_⟩
  · intro hnot
    rw [hhi, (hrest _).1]
    by_cases hj : k.jump = true
    · have hng : ¬ ((inputFireStep (inputRunStep k (inputMoveStep k e.mario))).on_ground = true ∧
          (inputFireStep (inputRunStep k (inputMoveStep k e.mario))).jumping = false) := by
        rw [h3og, h3j]
        rintro ⟨hg, hn⟩
        exact hnot ⟨hj, hg, hn⟩
      unfold inputJumpStep
      rw [if_pos hj, if_neg hng]
      exact h3vy
    · unfold inputJumpStep
      rw [if_neg hj]
      exact h3vy
  · rintro ⟨hj, hg, hn⟩
    have hfire := inputJumpStep_fire k
      (inputFireStep (inputRunStep k (inputMoveStep k e.mario))) hj
      (by rw [h3og]; exact hg) (by rw [h3j]; exact hn)
    constructor
    · rw [hhi, (hrest _).1, hfire.1, h3vx]
    · rw [hhi, (hrest _).2, hfire.2]
  · rintro ⟨hj, hjg⟩
    have hng : ¬ ((inputFireStep (inputRunStep k (inputMoveStep k e.mario))).on_ground = true ∧
        (inputFireStep (inputRunStep k (inputMoveStep k e.mario))).jumping = false) := by
      rw [h3j]
      rintro ⟨-, hn⟩
      rw [hjg] at hn
      exact Bool.noConfusion hn
    constructor
    · rw [hhi, (hrest _).2]
      unfold inputJumpStep
      rw [if_pos hj, if_neg hng]
      show (inputFireStep (inputRunStep k (inputMoveStep k e.mario))).jumping = true
      rw [h3j]; exact hjg
    · rw [hhi, (hrest _).1]
      unfold inputJumpStep
      rw [if_pos hj, if_neg hng]
      exact h3vy

def marioReady : Mario := { marioAir with on_ground := true }

def engineReady : Engine := { engineNoLevel with mario := marioReady }

def keysJump : Keys := ⟨false, false, true, false, false, false⟩

/-- C5 witness: a grounded character with the jump flag clear, jump held. -/
theorem C5_jump_edge_witness :
    (handle_input engineReady keysJump).mario.vel.y =
      (if |(inputMoveStep keysJump engineReady.mario).vel.x| > MARIO_WALK_SPEED
       then MARIO_RUN_JUMP_POWER else MARIO_JUMP_POWER) ∧
    (handle_input engineReady keysJump).mario.jumping = true :=
  (C5_jump_edge engineReady keysJump rfl rfl rfl).2.1 ⟨rfl, rfl, rfl⟩

-- ========== C9 (corrected) ==========

lemma platformStep_invincible (r0 : Rect) (m : Mario) (p : Platform) :
    (platformStep r0 m p).invincible = m.invincible := by
  unfold platformStep
  split_ifs <;> rfl

lemma platformFold_invincible (r0 : Rect) (ps : List Platform) : ∀ m : Mario,
    (ps.foldl (platformStep r0) m).invincible = m.invincible := by
  induction ps with
  | nil => intro m; rfl
  | cons p ps ih =>
    intro m
    exact (ih (platformStep r0 m p)).trans (platformStep_invincible r0 m p)

lemma hit_block_invincible_cases (m : Mario) (c s : Int) (b : Block) :
    (hit_block m c s b).1.invincible = m.invincible ∨
    (hit_block m c s b).1.invincible = 600 := by
  unfold hit_block
  split_ifs <;> first | exact Or.inl rfl | exact Or.inr rfl

lemma blockStep_invincible (r0 : Rect) (st : Mario × Int × Int) (b : Block)
    (h : 0 ≤ st.1.invincible) : 0 ≤ (blockStep r0 st b).1.1.invincible := by
  unfold blockStep
  split_ifs
  · show 0 ≤ (hit_block st.1 st.2.1 st.2.2 b).1.invincible
    rcases hit_block_invincible_cases st.1 st.2.1 st.2.2 b with hc | hc <;> omega
  · exact h
  · exact h

lemma blockPhase_invincible (r0 : Rect) : ∀ (bs : List Block) (st : Mario × Int × Int),
    0 ≤ st.1.invincible → 0 ≤ (blockPhase r0 st bs).1.1.invincible := by
  intro bs
  induction bs with
  | nil => intro st h; exact h
  | cons b bs ih =>
    intro st h
    exact ih (blockStep r0 st b).1 (blockStep_invincible r0 st b h)

lemma damage_mario_invincible_cases (e : Engine) (fresh : LevelData) :
    (damage_mario e fresh).mario.invincible = e.mario.invincible ∨
    (¬ e.mario.invincible > 0 ∧ e.mario.power ≠ PowerUp.SMALL ∧
       (damage_mario e fresh).mario.invincible = 120) ∨
    (¬ e.mario.invincible > 0 ∧ (damage_mario e fresh).mario.invincible = 0) := by
  unfold damage_mario
  split_ifs with h1 h2 h3
  · exact Or.inl rfl
  · exact Or.inr (Or.inl ⟨h1, h2, rfl⟩)
  · exact Or.inl rfl
  · exact Or.inr (Or.inr ⟨h1, rfl⟩)

lemma removeEnemy_mario (e : Engine) (en : Enemy) : (removeEnemy e en).mario = e.mario :=
  rfl

lemma enemyPhase_invincible (r0 : Rect) (fresh : Nat → LevelData) :
    ∀ (fuel i k : Nat) (e : Engine), 0 ≤ e.mario.invincible →
      0 ≤ (enemyPhase r0 fresh fuel i k e).mario.invincible := by
  intro fuel
  induction fuel with
  | zero => intro i k e h; exact h
  | succ n ih =>
    intro i k e h
    unfold enemyPhase
    split_ifs with hlt hcol hinv hstomp
    · exact ih _ _ _ h
    · exact ih _ _ _ h
    · refine ih _ _ _ ?_
      rcases damage_mario_invincible_cases e (fresh k) with hc | hc | hc
      · omega
      · omega
      · omega
    · exact ih _ _ _ h
    · exact h

lemma check_collisions_invincible (e : Engine) (fresh : Nat → LevelData)
    (h : 0 ≤ e.mario.invincible) : 0 ≤ (check_collisions e fresh).mario.invincible := by
  unfold check_collisions
  cases hcl : e.current_level_data with
  | none => exact h
  | some lvl =>
    apply enemyPhase_invincible
    show 0 ≤ ((blockPhase (get_mario_rect e.mario)
        (lvl.platforms.foldl (platformStep (get_mario_rect e.mario))
           { e.mario with on_ground := false }, e.coins, e.score)
        lvl.blocks).1.1.invincible)
    apply blockPhase_invincible
    show 0 ≤ (lvl.platforms.foldl (platformStep (get_mario_rect e.mario))
        { e.mario with on_ground := false }).invincible
    rw [platformFold_invincible]
    exact h

lemma update_mario_animation_invincible (m : Mario) :
    (update_mario_animation m).invincible = m.invincible := by
  unfold update_mario_animation
  split_ifs <;> rfl

lemma physicsAccelStep_invincible (m : Mario) :
    (physicsAccelStep m).invincible = m.invincible := by
  unfold physicsAccelStep
  split_ifs <;> rfl

lemma physicsFrictionStep_invincible (m : Mario) :
    (physicsFrictionStep m).invincible = m.invincible := by
  unfold physicsFrictionStep
  split_ifs <;> rfl

lemma physicsGravityStep_invincible (m : Mario) :
    (physicsGravityStep m).invincible = m.invincible := by
  unfold physicsGravityStep
  split_ifs <;> rfl

lemma physicsSteps_invincible (m : Mario) :
    (physicsMoveStep (physicsGravityStep (physicsFrictionStep
      (physicsAccelStep m)))).invincible = m.invincible := by
  exact (physicsGravityStep_invincible _).trans
    ((physicsFrictionStep_invincible _).trans (physicsAccelStep_invincible m))

lemma update_mario_physics_invincible (e : Engine) (fresh : Nat → LevelData)
    (h : 0 ≤ e.mario.invincible) :
    0 ≤ (update_mario_physics e fresh).mario.invincible := by
  unfold update_mario_physics
  rw [update_mario_animation_invincible]
  apply check_collisions_invincible
  show 0 ≤ (physicsMoveStep (physicsGravityStep (physicsFrictionStep
      (physicsAccelStep e.mario)))).invincible
  rw [physicsSteps_invincible]
  exact h

lemma handle_input_invincible (e : Engine) (k : Keys) :
    (handle_input e k).mario.invincible = e.mario.invincible := by
  unfold handle_input
  split_ifs
  · rfl
  · rfl
  · exact ((inputCooldownStep_fields _).2.2).trans
      (((inputPipeStep_fields k (levelPipes e) _).2.2).trans
        ((inputJumpStep_invincible k _).trans
          (((inputFireStep_fields _).2.2.2).trans
            ((inputMoveStep_fields k e.mario).2.2.2))))
  · rfl

lemma applyOp_invincible (e : Engine) (op : EngineOp)
    (h : 0 ≤ e.mario.invincible) : 0 ≤ (applyOp e op).mario.invincible := by
  cases op with
  | opDecay =>
    show 0 ≤ (invincibilityDecay e).mario.invincible
    unfold invincibilityDecay
    split_ifs with h1
    · show 0 ≤ e.mario.invincible - 1
      omega
    · exact h
  | opDamage fresh =>
    show 0 ≤ (damage_mario e fresh).mario.invincible
    rcases damage_mario_invincible_cases e fresh with hc | hc | hc <;> omega
  | opHitBlock b =>
    show 0 ≤ (hit_block e.mario e.coins e.score b).1.invincible
    rcases hit_block_invincible_cases e.mario e.coins e.score b with hc | hc <;> omega
  | opInput k =>
    show 0 ≤ (handle_input e k).mario.invincible
    rw [handle_input_invincible]
    exact h
  | opPhysics fresh => exact update_mario_physics_invincible e fresh h

lemma foldl_applyOp_invincible : ∀ (ops : List EngineOp) (e : Engine),
    0 ≤ e.mario.invincible → 0 ≤ (ops.foldl applyOp e).mario.invincible := by
  intro ops
  induction ops with
  | nil => intro e h; exact h
  | cons op ops ih =>
    intro e h
    exact ih (applyOp e op) (applyOp_invincible e op h)

/-- C9 amended: across every sequence of engine operations the timer never
goes negative; the per-tick decrement never increases it and keeps 0 at 0;
and the only way `damage_mario` moves the timer is the demotion branch —
from a non-negative start, a change implies the timer was 0, the tier was
above Small, and the new value is exactly 120.  (So from 0 the timer is
reset not only by a star pickup, as the claim states, but also by damage
taken at a tier above Small.) -/
theorem C9_timer_monotone (e : Engine) (ops : List EngineOp) (fresh : LevelData)
    (h0 : 0 ≤ e.mario.invincible) :
    0 ≤ (ops.foldl applyOp e).mario.invincible ∧
    (invincibilityDecay e).mario.invincible ≤ e.mario.invincible ∧
    (e.mario.invincible = 0 → (invincibilityDecay e).mario.invincible = 0) ∧
    ((damage_mario e fresh).mario.invincible ≠ e.mario.invincible →
       e.mario.invincible = 0 ∧ e.mario.power ≠ PowerUp.SMALL ∧
       (damage_mario e fresh).mario.invincible = 120) := by
  refine ⟨foldl_applyOp_invincible ops e h0, ?_, ?_, ?_⟩
  · unfold invincibilityDecay
    split_ifs with h1
    · show e.mario.invincible - 1 ≤ e.mario.invincible
      omega
    · exact le_refl _
  · intro hz
    unfold invincibilityDecay
    rw [if_neg (by omega)]
    exact hz
  · intro hne
    rcases damage_mario_invincible_cases e fresh with hc | hc | hc
    · exact absurd hc hne
    · exact ⟨by omega, hc.2.1, hc.2.2⟩
    · exact absurd (by omega : (damage_mario e fresh).mario.invincible = e.mario.invincible) hne

def enemyAtMario : Enemy := ⟨"goomba", ⟨100, 400⟩, ⟨-1, 0⟩, (0, 200)⟩

def levelWithEnemy : LevelData := ⟨[], [enemyAtMario], [], []⟩

def engineSuperAir : Engine :=
  { engineNoLevel with
      mario := { marioAir with pos := ⟨100, 400⟩, power := PowerUp.SUPER },
      current_level_data := some levelWithEnemy }

/-- C9 counterexample: a full physics tick on a Super character with timer
0 overlapping an enemy ends with the timer at 120 — the timer leaves 0
through the damage demotion, with no star-equivalent pickup involved. -/
theorem C9_counterexample :
    engineSuperAir.mario.invincible = 0 ∧
    (update_mario_physics engineSuperAir (fun _ => levelEmpty)).mario.invincible = 120 := by
  refine ⟨rfl, ?_⟩
  have hne : PowerUp.SUPER ≠ PowerUp.SMALL := by decide
  norm_num [update_mario_physics, physicsMoveStep, physicsGravityStep,
    physicsFrictionStep, physicsAccelStep, qmin, qmax, check_collisions,
    get_mario_rect, qtrunc, collideRect, blockPhase, levelEnemies, enemyPhase,
    enemyRect, removeEnemy, eraseFirst, damage_mario, reset_level,
    update_mario_animation, engineSuperAir, engineNoLevel, marioAir,
    levelWithEnemy, enemyAtMario, levelEmpty, hne, MARIO_GRAVITY,
    MARIO_MAX_FALL, MARIO_AIR_FRICTION, MARIO_JUMP_HOLD_GRAVITY]

/-- C9 witness: the concrete no-level engine, no operations. -/
theorem C9_timer_monotone_witness :
    0 ≤ engineNoLevel.mario.invincible ∧
    0 ≤ (([] : List EngineOp).foldl applyOp engineNoLevel).mario.invincible ∧
    (invincibilityDecay engineNoLevel).mario.invincible ≤ engineNoLevel.mario.invincible :=
  ⟨by decide,
   (C9_timer_monotone engineNoLevel [] levelEmpty (by decide)).1,
   (C9_timer_monotone engineNoLevel [] levelEmpty (by decide)).2.1⟩
